import Mathlib

/-!
Shallow embedding of the join-and-classification engine of the
`eva_cttv_pipeline` evidence-string generation code
(`clinvar_to_evidence_strings.py` and `consequence_type.py`).

Python strings are modelled as Lean `String`; the Python string methods
used by the code (`str.lower`, `str.rstrip`, `str.split` with a one-character
separator, `str.startswith`, `str.rjust`) are re-implemented below over the
character list of the string so that all definitions are executable by the
kernel.  Python `None` becomes `Option.none`, Python dicts built by the code
(`defaultdict(list)`, `defaultdict(int)`) become association lists in
insertion order, and a raised exception becomes `Except.error`.
-/

namespace EvaCttv

/-! ### Python string primitives -/

/-- Python `str.lower` (ASCII case folding, which is all the pipeline uses). -/
def pyLower (s : String) : String := String.mk (s.data.map Char.toLower)

/-- Split a character list on a separator character, Python `str.split(sep)`
semantics: the empty string yields `[""]`, and separators at the ends yield
empty fields. -/
def splitCharsOn (sep : Char) : List Char → List (List Char)
  | [] => [[]]
  | c :: cs =>
    match splitCharsOn sep cs with
    | h :: t => if c = sep then [] :: h :: t else (c :: h) :: t
    | [] => if c = sep then [[], []] else [[c]]

/-- Python `s.split(sep)` for a one-character separator. -/
def pySplit (s : String) (sep : Char) : List String :=
  (splitCharsOn sep s.data).map String.mk

/-- Python `str.rstrip()`: drop trailing whitespace. -/
def pyRstrip (s : String) : String :=
  String.mk (s.data.reverse.dropWhile Char.isWhitespace).reverse

/-- Python `s.startswith(c)` for a one-character argument. -/
def pyStartsWith (s : String) (c : Char) : Bool :=
  match s.data with
  | x :: _ => x = c
  | [] => false

/-- Python `str.rjust(width, fill)`. -/
def rjust (s : String) (width : Nat) (fill : Char) : String :=
  if width ≤ s.length then s else String.mk (List.replicate (width - s.length) fill ++ s.data)

/-! ### Association-list counterparts of the Python dicts -/

/-- Python `defaultdict(list)` together with `d[k].append(v)`: append `v` to the
list stored under `k`, creating the entry (at the end, i.e. in insertion order)
when the key is new. -/
def appendValue {α : Type} : List (String × List α) → String → α → List (String × List α)
  | [], k, v => [(k, [v])]
  | (k', vs) :: rest, k, v =>
    if k' = k then (k', vs ++ [v]) :: rest else (k', vs) :: appendValue rest k v

/-- Membership test `k in d` for the association-list dicts. -/
def dictHasKey {α : Type} (d : List (String × α)) (k : String) : Bool :=
  (d.lookup k).isSome

/-- Python `defaultdict(int)` read: a missing key counts as `0`. -/
def getCount (m : List (String × Nat)) (k : String) : Nat :=
  (m.lookup k).getD 0

/-- Python `defaultdict(int)` update `m[k] += 1`. -/
def incr (k : String) : List (String × Nat) → List (String × Nat)
  | [] => [(k, 1)]
  | (k', v) :: rest => if k' = k then (k', v + 1) :: rest else (k', v) :: incr k rest

/-! ### `consequence_type.py`: SoTerm -/

/-- The sequence-ontology term wrapper of `consequence_type.py` (class `SoTerm`).
Only the name is stored; the accession is recomputed from the fixed table. -/
structure SoTerm where
  so_name : String
deriving DecidableEq

namespace SoTerm

/-- The fixed name → numeric accession table (`SoTerm.so_accession_name_dict`). -/
def so_accession_name_dict : List (String × Nat) :=
  [("transcript_ablation", 1893),
   ("splice_donor_variant", 1575),
   ("splice_acceptor_variant", 1574),
   ("stop_gained", 1587),
   ("frameshift_variant", 1589),
   ("stop_lost", 1578),
   ("initiator_codon_variant", 1582),
   ("inframe_insertion", 1821),
   ("inframe_deletion", 1822),
   ("missense_variant", 1583),
   ("transcript_amplification", 1889),
   ("splice_region_variant", 1630),
   ("incomplete_terminal_codon_variant", 1626),
   ("synonymous_variant", 1819),
   ("stop_retained_variant", 1567),
   ("coding_sequence_variant", 1580),
   ("miRNA", 276),
   ("miRNA_target_site", 934),
   ("mature_miRNA_variant", 1620),
   ("5_prime_UTR_variant", 1623),
   ("3_prime_UTR_variant", 1624),
   ("exon_variant", 1791),
   ("non_coding_transcript_exon_variant", 1792),
   ("non_coding_transcript_variant", 1619),
   ("intron_variant", 1627),
   ("NMD_transcript_variant", 1621),
   ("TFBS_ablation", 1895),
   ("TFBS_amplification", 1892),
   ("TF_binding_site_variant", 1782),
   ("regulatory_region_variant", 1566),
   ("regulatory_region_ablation", 1894),
   ("regulatory_region_amplification", 1891),
   ("feature_elongation", 1907),
   ("feature_truncation", 1906),
   ("intergenic_variant", 1628),
   ("lincRNA", 1463),
   ("downstream_gene_variant", 1632),
   ("2KB_downstream_gene_variant", 1632),
   ("upstream_gene_variant", 1631),
   ("2KB_upstream_gene_variant", 1631),
   ("SNV", 1483),
   ("SNP", 694),
   ("RNA_polymerase_promoter", 1203),
   ("CpG_island", 307),
   ("DNAseI_hypersensitive_site", 685),
   ("polypeptide_variation_site", 336),
   ("start_lost", 2012),
   ("protein_altering_variant", 1818),
   ("gene_fusion", 1565),
   ("gene_variant", 1564),
   ("sequence_variant", 1060),
   ("trinucleotide_repeat_microsatellite_feature", 291),
   ("trinucleotide_repeat_expansion", 2165)]

/-- The fixed severity-ordered list (`SoTerm.ranked_so_names_list`);
lower index means more severe. -/
def ranked_so_names_list : List String :=
  ["transcript_ablation",
   "splice_acceptor_variant",
   "splice_donor_variant",
   "stop_gained",
   "frameshift_variant",
   "stop_lost",
   "initiator_codon_variant",
   "transcript_amplification",
   "inframe_insertion",
   "inframe_deletion",
   "missense_variant",
   "splice_region_variant",
   "incomplete_terminal_codon_variant",
   "stop_retained_variant",
   "synonymous_variant",
   "coding_sequence_variant",
   "mature_miRNA_variant",
   "5_prime_UTR_variant",
   "3_prime_UTR_variant",
   "non_coding_transcript_exon_variant",
   "intron_variant",
   "NMD_transcript_variant",
   "non_coding_transcript_variant",
   "upstream_gene_variant",
   "downstream_gene_variant",
   "TFBS_ablation",
   "TFBS_amplification",
   "TF_binding_site_variant",
   "regulatory_region_ablation",
   "regulatory_region_amplification",
   "regulatory_region_variant",
   "feature_elongation",
   "feature_truncation",
   "intergenic_variant"]

/-- The `_so_accession` attribute set by `SoTerm.__init__`: the numeric id from
the fixed table, or `None` when the name is unknown. -/
def so_accession (t : SoTerm) : Option Nat :=
  so_accession_name_dict.lookup t.so_name

/-- The `accession` property of `SoTerm`: `"SO:"` followed by the numeric id
right-justified with zeroes to 7 digits, or `None`. -/
def accession (t : SoTerm) : Option String :=
  match t.so_accession with
  | some n => some ("SO:" ++ rjust (toString n) 7 '0')
  | none => none

/-- The `rank` property of `SoTerm`: if the name is not in the ranked list,
the list's length (least severe); otherwise the index in the list. -/
def rank (t : SoTerm) : Nat :=
  if t.so_name ∉ ranked_so_names_list then ranked_so_names_list.length
  else ranked_so_names_list.indexOf t.so_name

end SoTerm

/-! ### `consequence_type.py`: the variant → gene/consequence table -/

/-- Class `ConsequenceType`: one gene association with its SO term. -/
structure ConsequenceType where
  ensembl_gene_id : String
  so_term : SoTerm
deriving DecidableEq

/-- The variant-key → consequence-list dict (`defaultdict(list)`). -/
abbrev CTDict := List (String × List ConsequenceType)

/-- Function `process_gene` of `consequence_type.py`. -/
def process_gene (consequence_type_dict : CTDict) (variant_id ensembl_gene_id so_term : String) :
    CTDict :=
  appendValue consequence_type_dict variant_id ⟨ensembl_gene_id, ⟨so_term⟩⟩

/-- One iteration of the line loop of `process_consequence_type_file_tsv`:
rstrip the line, split on tabs, skip lines with fewer than 6 fields, skip
lines whose gene id (field 2) is `"NA"`, otherwise add (field 0, field 2,
field 4) via `process_gene`.  The second state component is the
`one_rs_multiple_genes` set. -/
def ct_file_step (state : CTDict × List String) (line : String) : CTDict × List String :=
  let line_list := pySplit (pyRstrip line) '\t'
  if line_list.length < 6 then state
  else
    let variant_id := line_list.getD 0 ""
    let ensembl_gene_id := line_list.getD 2 ""
    let so_term := line_list.getD 4 ""
    if ensembl_gene_id = "NA" then state
    else (process_gene state.1 variant_id ensembl_gene_id so_term, state.2)

/-- Function `process_consequence_type_file_tsv`, over the file's lines. -/
def process_consequence_type_file_tsv (lines : List String) : CTDict × List String :=
  lines.foldl ct_file_step ([], [])

/-- Function `process_consequence_type_file`: returns only the dict. -/
def process_consequence_type_file (lines : List String) : CTDict :=
  (process_consequence_type_file_tsv lines).1

/-! ### `clinvar_to_evidence_strings.py`: allele origins and configuration -/

/-- The fixed germline-indicating vocabulary of `convert_allele_origins`. -/
def germline_allele_origins : List String :=
  ["biparental", "de novo", "germline", "inherited", "maternal", "not applicable",
   "not provided", "paternal", "uniparental", "unknown"]

/-- Function `convert_allele_origins`: lower-case the raw origin strings, then
emit `"somatic"` when present, followed by `"germline"` when any raw string is
in the fixed germline vocabulary. -/
def convert_allele_origins (orig_allele_origins : List String) : List String :=
  (if "somatic" ∈ orig_allele_origins.map pyLower then ["somatic"] else []) ++
  (if (orig_allele_origins.map pyLower).any (fun x => germline_allele_origins.contains x) then
    ["germline"] else [])

/-- Function `get_default_allowed_clinical_significance`. -/
def get_default_allowed_clinical_significance : List String :=
  ["unknown", "untested", "non-pathogenic", "probable-non-pathogenic",
   "probable-pathogenic", "pathogenic", "drug-response", "drug response",
   "histocompatibility", "other", "benign", "protective", "not provided",
   "likely benign", "confers sensitivity", "uncertain significance",
   "likely pathogenic", "conflicting data from submitters", "risk factor",
   "association"]

/-- The allowed-significance resolution in `launch_pipeline`: a truthy supplied
string (non-`None`, non-empty) is split on commas, anything else selects the
built-in default list. -/
def resolve_allowed_clinical_significance (allowed_clinical_significance : Option String) :
    List String :=
  match allowed_clinical_significance with
  | some s => if s = "" then get_default_allowed_clinical_significance else pySplit s ','
  | none => get_default_allowed_clinical_significance

/-! ### Data model of the join engine -/

/-- One measure of a ClinVar record (the fields of
`ClinvarRecordMeasure` read by the engine).  The chromosome and coordinates
are kept as the strings they are interpolated to. -/
structure ClinvarRecordMeasure where
  rs_id : Option String
  nsv_id : Option String
  chr : String
  start : String
  stop : String
  alt : Option String
deriving DecidableEq

/-- The fields of a `ClinvarRecord` read by the engine.  `traits` is the
ordered list of trait-name groups, each a list of synonymous names. -/
structure ClinvarRecord where
  accession : String
  clinical_significance : String
  allele_origins : List String
  traits : List (List String)
  measures : List ClinvarRecordMeasure
deriving DecidableEq

/-- Modelled from the spec: class `trait.Trait` lives in the repository's
`trait` module, which is not among the provided sources.  Per spec §3 a
ResolvedTrait carries the display name, the ontology id, the ontology label
and the originating group index, which matches the constructor call
`trait.Trait(trait_string, mapping[0], mapping[1], trait_counter)` in
`create_trait_list`. -/
structure Trait where
  clinvar_name : String
  ontology_id : String
  ontology_label : Option String
  trait_counter : Nat
deriving DecidableEq

/-- The trait-name → (ontology id, ontology label) list dict
(`defaultdict(list)` built by `load_efo_mapping`). -/
abbrev EfoDict := List (String × List (String × Option String))

/-- The fields of the `Report` object touched by the join engine.  Counter
dicts (`defaultdict(int)`) are association lists; the emitted evidence
strings are recorded as the (consequence, trait, origin) tuple they were
built from (their construction and schema validation live in the external
`evidence_strings` module and are modelled as always succeeding). -/
structure Report where
  n_processed_clinvar_records : Nat
  n_multiple_evidence_strings : Nat
  n_multiple_allele_origin : Nat
  no_variant_to_ensg_mapping : Nat
  n_missed_strings_unmapped_traits : Nat
  n_nsvs : Nat
  n_valid_rs_and_nsv : Nat
  n_nsv_skipped_clin_sig : Nat
  record_counter : Nat
  n_unrecognised_allele_origin : List (String × Nat)
  unmapped_traits : List (String × Nat)
  nsv_list : List String
  evidence_string_list : List (Option ConsequenceType × Trait × String)
deriving DecidableEq

/-- A fresh report, all counters zero (`Report.__init__`). -/
def initialReport : Report :=
  ⟨0, 0, 0, 0, 0, 0, 0, 0, 0, [], [], [], []⟩

/-! ### The skip filter and the consequence lookup -/

/-- Function `skip_record` of `clinvar_to_evidence_strings.py`: the checks are
applied in the fixed order (clinical significance, absent consequence, allele
origin), the first match returning `True` at once.  The function both decides
the skip and performs the counter updates, so it returns the updated report. -/
def skip_record (clinvar_record : ClinvarRecord) (clinvar_record_measure : ClinvarRecordMeasure)
    (consequence_type : Option ConsequenceType) (allele_origin : String)
    (allowed_clinical_significance : List String) (report : Report) : Bool × Report :=
  if pyLower clinvar_record.clinical_significance ∉ allowed_clinical_significance then
    (true,
      if clinvar_record_measure.nsv_id.isSome then
        { report with n_nsv_skipped_clin_sig := report.n_nsv_skipped_clin_sig + 1 }
      else report)
  else if consequence_type.isNone then
    (true, { report with no_variant_to_ensg_mapping := report.no_variant_to_ensg_mapping + 1 })
  else if allele_origin ∉ ["germline", "somatic"] then
    (true,
      { report with
        n_unrecognised_allele_origin := incr allele_origin report.n_unrecognised_allele_origin })
  else (false, report)

/-- The synthesized coordinate key
`"{chr}:{start}-{stop}:1/{alt}"` of `get_consequence_types`, with `"-"`
standing in for an absent alternate allele. -/
def coord_id (m : ClinvarRecordMeasure) : String :=
  m.chr ++ ":" ++ m.start ++ "-" ++ m.stop ++ ":1/" ++
    (match m.alt with | some a => a | none => "-")

/-- Key-presence test for an optional id (the Python
`id is not None and id in consequence_type_dict` conjunctions). -/
def optionKeyHit (d : CTDict) : Option String → Bool
  | some k => dictHasKey d k
  | none => false

/-- Function `get_consequence_types`: try the rs id, the nsv id, the
coordinate key and the record accession in that order; return the matching
key's association list, or `[None]` when no key matches.
`record_accession` stands for `clinvar_record_measure.clinvar_record.accession`. -/
def get_consequence_types (clinvar_record_measure : ClinvarRecordMeasure)
    (record_accession : String) (consequence_type_dict : CTDict) :
    List (Option ConsequenceType) :=
  let consequence_type_dict_id : Option String :=
    if optionKeyHit consequence_type_dict clinvar_record_measure.rs_id then
      clinvar_record_measure.rs_id
    else if optionKeyHit consequence_type_dict clinvar_record_measure.nsv_id then
      clinvar_record_measure.nsv_id
    else if dictHasKey consequence_type_dict (coord_id clinvar_record_measure) then
      some (coord_id clinvar_record_measure)
    else if dictHasKey consequence_type_dict record_accession then
      some record_accession
    else none
  match consequence_type_dict_id with
  | some key => ((consequence_type_dict.lookup key).getD []).map some
  | none => [none]

/-! ### Trait resolution -/

/-- Modelled from the spec: function `trait.map_efo` lives in the repository's
`trait` module, which is not among the provided sources.  Per spec §4.3 it
finds the first name of the group (case-insensitively, i.e. after
lower-casing, since the dict keys are lower-cased) that has at least one
ontology entry and returns that name with its entries; when no name of the
group resolves it returns an absent mapping list. -/
def map_efo (trait_2_efo_dict : EfoDict) (name_list : List String) :
    String × Option (List (String × Option String)) :=
  match name_list.find? (fun name =>
      match trait_2_efo_dict.lookup (pyLower name) with
      | some (_ :: _) => true
      | _ => false) with
  | some name => (name, trait_2_efo_dict.lookup (pyLower name))
  | none => ("", none)

/-- Function `create_trait_list`: `None` when the group has no mapping,
otherwise one `Trait` per (id, label) pair (and `None` again if that list is
empty). -/
def create_trait_list (name_list : List String) (trait_2_efo_dict : EfoDict)
    (trait_counter : Nat) : Option (List Trait) :=
  match map_efo trait_2_efo_dict name_list with
  | (_, none) => none
  | (trait_string, some mappings) =>
    let new_trait_list := mappings.map
      (fun mapping => Trait.mk trait_string mapping.1 mapping.2 trait_counter)
    if new_trait_list.isEmpty then none else some new_trait_list

/-- Python truthiness of the `new_trait_list` value in `create_traits`
(`None` and the empty list are falsy). -/
def pyTruthyList {α : Type} : Option (List α) → Bool
  | some (_ :: _) => true
  | _ => false

/-- The loop of function `create_traits` (`enumerate` supplies
`trait_counter`): resolving groups extend the trait list, failing groups
increment `n_missed_strings_unmapped_traits` once and the per-name
`unmapped_traits` count once per name of the group. -/
def create_traits_go (trait_2_efo_dict : EfoDict) (trait_counter : Nat)
    (groups : List (List String)) (traits : List Trait) (report : Report) :
    List Trait × Report :=
  match groups with
  | [] => (traits, report)
  | name_list :: rest =>
    let new_trait_list := create_trait_list name_list trait_2_efo_dict trait_counter
    if pyTruthyList new_trait_list then
      create_traits_go trait_2_efo_dict (trait_counter + 1) rest
        (traits ++ new_trait_list.getD []) report
    else
      create_traits_go trait_2_efo_dict (trait_counter + 1) rest traits
        { report with
          n_missed_strings_unmapped_traits := report.n_missed_strings_unmapped_traits + 1,
          unmapped_traits :=
            name_list.foldl (fun m name => incr name m) report.unmapped_traits }

/-- Function `create_traits`. -/
def create_traits (clinvar_traits : List (List String)) (trait_2_efo_dict : EfoDict)
    (report : Report) : List Trait × Report :=
  create_traits_go trait_2_efo_dict 0 clinvar_traits [] report

/-! ### The per-record join loop -/

/-- Function `append_nsv`. -/
def append_nsv (nsv_list : List String) (clinvar_record_measure : ClinvarRecordMeasure) :
    List String :=
  match clinvar_record_measure.nsv_id with
  | some nsv => nsv_list ++ [nsv]
  | none => nsv_list

/-- The `itertools.product` of the three tuple components, in its iteration
order (consequence outermost, origin innermost). -/
def product3 {α β γ : Type} (xs : List α) (ys : List β) (zs : List γ) : List (α × β × γ) :=
  xs.flatMap (fun x => ys.flatMap (fun y => zs.map (fun z => (x, y, z))))

/-- The body of the innermost loop of `clinvar_to_evidence_strings` (one
(consequence, trait, origin) tuple): apply `skip_record`, and when the tuple
survives, emit the evidence string and do the per-emission bookkeeping.  The
`Nat` component is `n_ev_strings_per_record`. -/
def process_tuple (clinvar_record : ClinvarRecord)
    (clinvar_record_measure : ClinvarRecordMeasure)
    (allowed_clinical_significance : List String) (state : Report × Nat)
    (tuple : Option ConsequenceType × Trait × String) : Report × Nat :=
  let (skip, report) := skip_record clinvar_record clinvar_record_measure tuple.1 tuple.2.2
    allowed_clinical_significance state.1
  if skip then (report, state.2)
  else
    ({ report with
        evidence_string_list := report.evidence_string_list ++ [tuple],
        n_valid_rs_and_nsv := report.n_valid_rs_and_nsv +
          (if clinvar_record_measure.nsv_id.isSome then 1 else 0) },
      state.2 + 1)

/-- The counter updates at the top of the measure loop of
`clinvar_to_evidence_strings` (`n_nsvs`, `append_nsv`,
`n_multiple_allele_origin`). -/
def measure_pre_report (clinvar_record : ClinvarRecord)
    (clinvar_record_measure : ClinvarRecordMeasure) (report : Report) : Report :=
  { report with
    n_nsvs := report.n_nsvs + (if clinvar_record_measure.nsv_id.isSome then 1 else 0),
    nsv_list := append_nsv report.nsv_list clinvar_record_measure,
    n_multiple_allele_origin := report.n_multiple_allele_origin +
      (if 1 < clinvar_record.allele_origins.length then 1 else 0) }

/-- The tuple loop of `clinvar_to_evidence_strings`: trait and origin
resolution followed by the fold of `process_tuple` over the Cartesian
product of consequences, traits and converted origins. -/
def measure_tuple_phase (clinvar_record : ClinvarRecord)
    (clinvar_record_measure : ClinvarRecordMeasure) (consequence_type_dict : CTDict)
    (trait_2_efo_dict : EfoDict) (allowed_clinical_significance : List String)
    (report : Report) (n_ev_strings_per_record : Nat) : Report × Nat :=
  (product3
      (get_consequence_types clinvar_record_measure clinvar_record.accession
        consequence_type_dict)
      (create_traits clinvar_record.traits trait_2_efo_dict report).1
      (convert_allele_origins clinvar_record.allele_origins)).foldl
    (process_tuple clinvar_record clinvar_record_measure allowed_clinical_significance)
    ((create_traits clinvar_record.traits trait_2_efo_dict report).2,
      n_ev_strings_per_record)

/-- The per-measure check of `n_ev_strings_per_record` after the tuple loop
(it sits inside the measure loop in the source and reads the running
count): a positive count bumps `n_processed_clinvar_records`, and a count
above one additionally bumps `n_multiple_evidence_strings`. -/
def measure_post (state : Report × Nat) : Report × Nat :=
  if 0 < state.2 then
    ({ state.1 with
        n_processed_clinvar_records := state.1.n_processed_clinvar_records + 1,
        n_multiple_evidence_strings := state.1.n_multiple_evidence_strings +
          (if 1 < state.2 then 1 else 0) },
      state.2)
  else state

/-- The body of the measure loop of `clinvar_to_evidence_strings`: the
per-measure counters, the tuple loop and the per-measure count check. -/
def process_measure (clinvar_record : ClinvarRecord)
    (clinvar_record_measure : ClinvarRecordMeasure) (consequence_type_dict : CTDict)
    (trait_2_efo_dict : EfoDict) (allowed_clinical_significance : List String)
    (state : Report × Nat) : Report × Nat :=
  measure_post (measure_tuple_phase clinvar_record clinvar_record_measure
    consequence_type_dict trait_2_efo_dict allowed_clinical_significance
    (measure_pre_report clinvar_record clinvar_record_measure state.1) state.2)

/-- The body of the record loop of `clinvar_to_evidence_strings`: bump the
record counter, reset `n_ev_strings_per_record`, and fold
`process_measure` over the record's measures. -/
def process_record (clinvar_record : ClinvarRecord) (consequence_type_dict : CTDict)
    (trait_2_efo_dict : EfoDict) (allowed_clinical_significance : List String)
    (report : Report) : Report :=
  (clinvar_record.measures.foldl
    (fun state m => process_measure clinvar_record m consequence_type_dict trait_2_efo_dict
      allowed_clinical_significance state)
    ({ report with record_counter := report.record_counter + 1 }, 0)).1

/-! ### `load_efo_mapping` -/

/-- The (id, label) pairs of one well-formed EFO mapping line: the ids of
field 1 split on `"|"` zipped against the labels of field 2 split on `"|"`
when that field exists, else against as many absent labels as there are ids. -/
def efo_line_pairs (line_list : List String) : List (String × Option String) :=
  let ontology_id_list := pySplit (line_list.getD 1 "") '|'
  let ontology_label_list :=
    if 2 < line_list.length then (pySplit (line_list.getD 2 "") '|').map some
    else List.replicate ontology_id_list.length none
  ontology_id_list.zip ontology_label_list

/-- One iteration of the line loop of `load_efo_mapping`: rstrip, skip
comments and blank lines, raise `ValueError` (modelled as `Except.error`)
when the line has no second tab-separated field, otherwise append the line's
(id, label) pairs under the lower-cased trait name. -/
def process_efo_line (trait_2_efo : EfoDict) (raw_line : String) : Except String EfoDict :=
  let line := pyRstrip raw_line
  if pyStartsWith line '#' || line = "" then Except.ok trait_2_efo
  else
    let line_list := pySplit line '\t'
    let clinvar_name := pyLower (line_list.getD 0 "")
    if 1 < line_list.length then
      Except.ok ((efo_line_pairs line_list).foldl
        (fun d p => appendValue d clinvar_name p) trait_2_efo)
    else Except.error ("No mapping provided for trait: " ++ clinvar_name)

/-- The line loop of `load_efo_mapping`, aborting at the first raised error. -/
def load_efo_mapping_go (trait_2_efo : EfoDict) : List String → Except String EfoDict
  | [] => Except.ok trait_2_efo
  | line :: rest =>
    match process_efo_line trait_2_efo line with
    | Except.ok d => load_efo_mapping_go d rest
    | Except.error e => Except.error e

/-- Function `load_efo_mapping`, over the file's lines. -/
def load_efo_mapping (lines : List String) : Except String EfoDict :=
  load_efo_mapping_go [] lines

/-! ### Sample data used by the witnesses -/

/-- A sample measure carrying an rs id and an alternate allele. -/
def sampleMeasure : ClinvarRecordMeasure :=
  ⟨some "rs123", none, "1", "100", "200", some "A"⟩

/-- A sample consequence association. -/
def sampleCT1 : ConsequenceType := ⟨"ENSG00000001", ⟨"missense_variant"⟩⟩

/-- A second sample consequence association on the same variant key. -/
def sampleCT2 : ConsequenceType := ⟨"ENSG00000002", ⟨"intron_variant"⟩⟩

/-- A sample consequence table resolving the sample measure's rs id. -/
def sampleDict : CTDict := [("rs123", [sampleCT1, sampleCT2])]

/-- A sample EFO mapping resolving one trait name. -/
def sampleEfo : EfoDict := [("long qt syndrome", [("EFO:0000768", some "Long QT syndrome")])]

/-- A sample record with allowed significance, two classified origins and one
resolvable trait group. -/
def sampleRecord : ClinvarRecord :=
  ⟨"RCV000001", "Pathogenic", ["germline", "somatic"], [["Long QT Syndrome"]], [sampleMeasure]⟩

/-- The trait the sample record resolves to. -/
def sampleTrait : Trait := ⟨"Long QT Syndrome", "EFO:0000768", some "Long QT syndrome", 0⟩

/-- The sample record with a clinical significance outside every allowed set
used below. -/
def badSigRecord : ClinvarRecord :=
  ⟨"RCV000002", "bogus significance", ["germline", "somatic"], [["Long QT Syndrome"]],
    [sampleMeasure]⟩

/-- The sample record with a trait group no mapping resolves. -/
def unmappedRecord : ClinvarRecord :=
  ⟨"RCV000003", "Pathogenic", ["germline", "somatic"], [["Mystery Disease"]], [sampleMeasure]⟩

/-- A record with two measures and one unresolvable trait group, with allowed
significance, resolving consequences and valid origins, so that its zero
emission is due solely to trait resolution. -/
def twoMeasureRecord : ClinvarRecord :=
  ⟨"RCV000004", "Pathogenic", ["germline", "somatic"], [["Mystery Disease"]],
    [sampleMeasure, sampleMeasure]⟩

/-! ### Derived predicates used in the statements -/

/-- Whether a trait-name group resolves: `map_efo` yields at least one
(id, label) entry for some name of the group. -/
def group_resolves (efo : EfoDict) (g : List String) : Bool :=
  match (map_efo efo g).2 with
  | some (_ :: _) => true
  | _ => false

/-- The number of (id, label) pairs stored under a key of the EFO dict. -/
def countPairs (d : EfoDict) (k : String) : Nat :=
  ((d.lookup k).getD []).length

/-- Whether an EFO-mapping line raises: neither a comment nor blank after
rstrip, yet without a second tab-separated field. -/
def efo_line_bad (raw_line : String) : Bool :=
  !(pyStartsWith (pyRstrip raw_line) '#' || pyRstrip raw_line = "") &&
  !(1 < (pySplit (pyRstrip raw_line) '\t').length : Bool)

/-- Whether an `Except` value is a success. -/
def exceptIsOk {ε α : Type} : Except ε α → Bool
  | Except.ok _ => true
  | Except.error _ => false

/-! ### Helper lemmas -/

theorem ct_file_step_snd (state : CTDict × List String) (line : String) :
    (ct_file_step state line).2 = state.2 := by
  rw [ct_file_step]
  dsimp only
  split
  · rfl
  · split <;> rfl

theorem ct_file_fold_snd (lines : List String) :
    ∀ state : CTDict × List String, (lines.foldl ct_file_step state).2 = state.2 := by
  induction lines with
  | nil => intro state; rfl
  | cons l ls ih => intro state; rw [List.foldl_cons, ih, ct_file_step_snd]

/-! ### C10 -/

/-- C10: `process_consequence_type_file_tsv` never adds to
`one_rs_multiple_genes`: its second result is the empty set for every input,
so the count of rs ids with multiple gene associations reported after loading
is always 0, no matter how many lines share a variant key. -/
theorem C10_one_rs_multiple_genes_empty (lines : List String) :
    (process_consequence_type_file_tsv lines).2 = [] ∧
    (process_consequence_type_file_tsv lines).2.length = 0 := by
  have h : (process_consequence_type_file_tsv lines).2 = [] :=
    ct_file_fold_snd lines ([], [])
  exact ⟨h, by rw [h]; rfl⟩

/-! ### C8 -/

/-- C8: the rank of a `SoTerm` is the index of its name in the fixed
severity-ordered list when the name occurs there and the list's length when
it does not; in particular the rank of `transcript_ablation` is below that of
`intron_variant`, which is below that of an unknown term, whose rank equals
the severity list's length. -/
theorem C8_so_term_rank (name : String) :
    (name ∈ SoTerm.ranked_so_names_list →
      (SoTerm.mk name).rank = SoTerm.ranked_so_names_list.indexOf name) ∧
    (name ∉ SoTerm.ranked_so_names_list →
      (SoTerm.mk name).rank = SoTerm.ranked_so_names_list.length) ∧
    (SoTerm.mk "transcript_ablation").rank < (SoTerm.mk "intron_variant").rank ∧
    (SoTerm.mk "intron_variant").rank < (SoTerm.mk "totally_unknown_term").rank ∧
    (SoTerm.mk "totally_unknown_term").rank = SoTerm.ranked_so_names_list.length := by
  refine ⟨fun h => ?_, fun h => ?_, by decide, by decide, by decide⟩
  · dsimp only [SoTerm.rank]
    rw [if_neg (not_not_intro h)]
  · dsimp only [SoTerm.rank]
    rw [if_pos h]

/-- Concrete instantiation of the two conditional parts of `C8_so_term_rank`. -/
theorem C8_so_term_rank_witness :
    ("missense_variant" ∈ SoTerm.ranked_so_names_list ∧
      (SoTerm.mk "missense_variant").rank =
        SoTerm.ranked_so_names_list.indexOf "missense_variant") ∧
    ("no_such_term" ∉ SoTerm.ranked_so_names_list ∧
      (SoTerm.mk "no_such_term").rank = SoTerm.ranked_so_names_list.length) :=
  ⟨⟨by decide, (C8_so_term_rank "missense_variant").1 (by decide)⟩,
   ⟨by decide, (C8_so_term_rank "no_such_term").2.1 (by decide)⟩⟩

/-! ### C9 -/

/-- C9: the accession of a `SoTerm` is `"SO:"` followed by the table's numeric
id zero-padded to 7 digits when the name is in the fixed table, and `None`
otherwise; in particular the accession of `missense_variant` is
`"SO:0001583"`. -/
theorem C9_so_term_accession (name : String) :
    (∀ n : Nat, SoTerm.so_accession_name_dict.lookup name = some n →
      (SoTerm.mk name).accession = some ("SO:" ++ rjust (toString n) 7 '0')) ∧
    (SoTerm.so_accession_name_dict.lookup name = none →
      (SoTerm.mk name).accession = none) ∧
    (SoTerm.mk "missense_variant").accession = some "SO:0001583" := by
  refine ⟨fun n h => ?_, fun h => ?_, by decide⟩
  · dsimp only [SoTerm.accession, SoTerm.so_accession]
    rw [h]
  · dsimp only [SoTerm.accession, SoTerm.so_accession]
    rw [h]

/-- Concrete instantiation of the two conditional parts of
`C9_so_term_accession`. -/
theorem C9_so_term_accession_witness :
    (SoTerm.so_accession_name_dict.lookup "missense_variant" = some 1583 ∧
      (SoTerm.mk "missense_variant").accession = some ("SO:" ++ rjust (toString 1583) 7 '0')) ∧
    (SoTerm.so_accession_name_dict.lookup "no_such_term" = none ∧
      (SoTerm.mk "no_such_term").accession = none) :=
  ⟨⟨by decide, (C9_so_term_accession "missense_variant").1 1583 (by decide)⟩,
   ⟨by decide, (C9_so_term_accession "no_such_term").2.1 (by decide)⟩⟩

/-! ### C5 -/

/-- C5: for every input, `convert_allele_origins` returns, in this order,
`"somatic"` exactly when `"somatic"` is among the lower-cased inputs followed
by `"germline"` exactly when some lower-cased input is in the fixed ten-word
germline vocabulary (spelled out literally below); consequently it depends
only on which lower-cased strings occur in the input (order-independent), its
output is always one of `[]`, `["somatic"]`, `["germline"]`,
`["somatic", "germline"]` (so somatic precedes germline and no other value is
ever produced), classifying `["germline", "somatic"]` yields exactly
`["somatic", "germline"]`, `["unknown"]` yields `["germline"]`, and
`["foo"]` yields `[]`. -/
theorem C5_convert_allele_origins :
    (∀ l : List String, convert_allele_origins l =
      (if "somatic" ∈ l.map pyLower then ["somatic"] else []) ++
      (if ∃ x ∈ l.map pyLower, x ∈ (["biparental", "de novo", "germline", "inherited",
          "maternal", "not applicable", "not provided", "paternal", "uniparental",
          "unknown"] : List String) then ["germline"] else [])) ∧
    (∀ l1 l2 : List String, l1.map pyLower ⊆ l2.map pyLower →
      l2.map pyLower ⊆ l1.map pyLower →
      convert_allele_origins l1 = convert_allele_origins l2) ∧
    (∀ l : List String, convert_allele_origins l = [] ∨
      convert_allele_origins l = ["somatic"] ∨
      convert_allele_origins l = ["germline"] ∨
      convert_allele_origins l = ["somatic", "germline"]) ∧
    convert_allele_origins ["germline", "somatic"] = ["somatic", "germline"] ∧
    convert_allele_origins ["unknown"] = ["germline"] ∧
    convert_allele_origins ["foo"] = [] := by
  refine ⟨fun l => ?_, fun l1 l2 hsub hsup => ?_, fun l => ?_, by decide, by decide, by decide⟩
  · rw [convert_allele_origins]
    have h2 : ((l.map pyLower).any (fun x => germline_allele_origins.contains x) = true) =
        (∃ x ∈ l.map pyLower, x ∈ (["biparental", "de novo", "germline", "inherited",
          "maternal", "not applicable", "not provided", "paternal", "uniparental",
          "unknown"] : List String)) := by
      rw [eq_iff_iff, List.any_eq_true]
      constructor
      · rintro ⟨x, hx, hc⟩
        exact ⟨x, hx, by simpa [germline_allele_origins] using hc⟩
      · rintro ⟨x, hx, hm⟩
        exact ⟨x, hx, by simpa [germline_allele_origins] using hm⟩
    simp only [h2]
  · have h : ∀ s, s ∈ l1.map pyLower ↔ s ∈ l2.map pyLower :=
      fun s => ⟨fun hs => hsub hs, fun hs => hsup hs⟩
    have h1 : ("somatic" ∈ l1.map pyLower) = ("somatic" ∈ l2.map pyLower) := propext (h _)
    have h2 : (l1.map pyLower).any (fun x => germline_allele_origins.contains x) =
        (l2.map pyLower).any (fun x => germline_allele_origins.contains x) := by
      apply Bool.eq_iff_iff.mpr
      constructor
      · intro hx
        rcases List.any_eq_true.mp hx with ⟨x, hxm, hp⟩
        exact List.any_eq_true.mpr ⟨x, (h x).mp hxm, hp⟩
      · intro hx
        rcases List.any_eq_true.mp hx with ⟨x, hxm, hp⟩
        exact List.any_eq_true.mpr ⟨x, (h x).mpr hxm, hp⟩
    rw [convert_allele_origins, convert_allele_origins]
    simp only [h1, h2]
  · rw [convert_allele_origins]
    split <;> split <;> simp

/-- Concrete instantiation of the order-independence part of
`C5_convert_allele_origins`: a permuted, re-cased origin list classifies
identically. -/
theorem C5_convert_allele_origins_witness :
    (["Somatic", "de novo"].map pyLower ⊆ ["DE NOVO", "somatic", "somatic"].map pyLower) ∧
    (["DE NOVO", "somatic", "somatic"].map pyLower ⊆ ["Somatic", "de novo"].map pyLower) ∧
    convert_allele_origins ["Somatic", "de novo"] =
      convert_allele_origins ["DE NOVO", "somatic", "somatic"] :=
  ⟨by decide, by decide, C5_convert_allele_origins.2.1 ["Somatic", "de novo"]
    ["DE NOVO", "somatic", "somatic"] (by decide) (by decide)⟩

/-! ### C4 -/

/-- C4 counterexample: the built-in default allowed-clinical-significance list
has 20 labels, not 18 as the claim states. -/
theorem C4_default_significance_counterexample :
    get_default_allowed_clinical_significance.length = 20 ∧ (20 : Nat) ≠ 18 := by
  decide

/-- C4 amended: when the caller supplies no allowed-clinical-significance
string (or an empty one, which Python treats as falsy), the engine uses the
fixed built-in default list of exactly 20 labels; a supplied non-empty string
is split on commas and used as-is. -/
theorem C4_default_significance_amended (s : String) :
    resolve_allowed_clinical_significance none = get_default_allowed_clinical_significance ∧
    get_default_allowed_clinical_significance.length = 20 ∧
    (s ≠ "" → resolve_allowed_clinical_significance (some s) = pySplit s ',') := by
  refine ⟨rfl, by decide, fun h => ?_⟩
  simp [resolve_allowed_clinical_significance, h]

/-- Concrete instantiation of the comma-splitting part of
`C4_default_significance_amended`. -/
theorem C4_default_significance_amended_witness :
    ("pathogenic,likely pathogenic" : String) ≠ "" ∧
    resolve_allowed_clinical_significance (some "pathogenic,likely pathogenic") =
      pySplit "pathogenic,likely pathogenic" ',' :=
  ⟨by decide,
   (C4_default_significance_amended "pathogenic,likely pathogenic").2.2 (by decide)⟩

/-! ### C2 -/

/-- C2: the consequence lookup tries keys in strict priority order — the rs id
when present and a key, then the nsv id when present and a key, then the
synthesized coordinate key, then the record accession — returning the first
matching key's association list, and `[None]` (a one-element list, never the
empty list) when no key matches. -/
theorem C2_get_consequence_types_priority (m : ClinvarRecordMeasure) (acc : String)
    (d : CTDict) :
    (∀ r vs, m.rs_id = some r → d.lookup r = some vs →
      get_consequence_types m acc d = vs.map some) ∧
    (∀ n vs, (∀ r, m.rs_id = some r → d.lookup r = none) →
      m.nsv_id = some n → d.lookup n = some vs →
      get_consequence_types m acc d = vs.map some) ∧
    (∀ vs, (∀ r, m.rs_id = some r → d.lookup r = none) →
      (∀ n, m.nsv_id = some n → d.lookup n = none) →
      d.lookup (coord_id m) = some vs →
      get_consequence_types m acc d = vs.map some) ∧
    (∀ vs, (∀ r, m.rs_id = some r → d.lookup r = none) →
      (∀ n, m.nsv_id = some n → d.lookup n = none) →
      d.lookup (coord_id m) = none → d.lookup acc = some vs →
      get_consequence_types m acc d = vs.map some) ∧
    ((∀ r, m.rs_id = some r → d.lookup r = none) →
      (∀ n, m.nsv_id = some n → d.lookup n = none) →
      d.lookup (coord_id m) = none → d.lookup acc = none →
      get_consequence_types m acc d = [none] ∧ get_consequence_types m acc d ≠ []) := by
  refine ⟨fun r vs hr hv => ?_, fun n vs hrs hn hv => ?_, fun vs hrs hns hv => ?_,
    fun vs hrs hns hc hv => ?_, fun hrs hns hc ha => ?_⟩
  · simp [get_consequence_types, optionKeyHit, dictHasKey, hr, hv]
  · have hrsf : optionKeyHit d m.rs_id = false := by
      cases h : m.rs_id with
      | none => rfl
      | some r => simp [optionKeyHit, dictHasKey, hrs r h]
    simp only [get_consequence_types, hrsf]
    simp [optionKeyHit, dictHasKey, hn, hv]
  · have hrsf : optionKeyHit d m.rs_id = false := by
      cases h : m.rs_id with
      | none => rfl
      | some r => simp [optionKeyHit, dictHasKey, hrs r h]
    have hnsf : optionKeyHit d m.nsv_id = false := by
      cases h : m.nsv_id with
      | none => rfl
      | some n => simp [optionKeyHit, dictHasKey, hns n h]
    simp only [get_consequence_types, hrsf, hnsf]
    simp [dictHasKey, hv]
  · have hrsf : optionKeyHit d m.rs_id = false := by
      cases h : m.rs_id with
      | none => rfl
      | some r => simp [optionKeyHit, dictHasKey, hrs r h]
    have hnsf : optionKeyHit d m.nsv_id = false := by
      cases h : m.nsv_id with
      | none => rfl
      | some n => simp [optionKeyHit, dictHasKey, hns n h]
    simp only [get_consequence_types, hrsf, hnsf]
    simp [dictHasKey, hc, hv]
  · have hrsf : optionKeyHit d m.rs_id = false := by
      cases h : m.rs_id with
      | none => rfl
      | some r => simp [optionKeyHit, dictHasKey, hrs r h]
    have hnsf : optionKeyHit d m.nsv_id = false := by
      cases h : m.nsv_id with
      | none => rfl
      | some n => simp [optionKeyHit, dictHasKey, hns n h]
    simp only [get_consequence_types, hrsf, hnsf]
    simp [dictHasKey, hc, ha]

/-- Concrete instantiation of the rs-id case of
`C2_get_consequence_types_priority`. -/
theorem C2_get_consequence_types_priority_witness :
    sampleMeasure.rs_id = some "rs123" ∧
    sampleDict.lookup "rs123" = some [sampleCT1, sampleCT2] ∧
    get_consequence_types sampleMeasure "RCV000001" sampleDict =
      [sampleCT1, sampleCT2].map some :=
  ⟨rfl, rfl,
   (C2_get_consequence_types_priority sampleMeasure "RCV000001" sampleDict).1
     "rs123" [sampleCT1, sampleCT2] rfl rfl⟩

/-! ### Helper lemmas for the skip filter -/

theorem getCount_incr (m : List (String × Nat)) (k n : String) :
    getCount (incr k m) n = getCount m n + (if n = k then 1 else 0) := by
  induction m with
  | nil =>
    by_cases h : n = k
    · subst h; simp [incr, getCount, List.lookup]
    · have hb : (n == k) = false := by simp [h]
      simp [incr, getCount, List.lookup, hb, h]
  | cons p rest ih =>
    rcases p with ⟨k1, v⟩
    by_cases hk : k1 = k
    · subst hk
      by_cases h : n = k1
      · subst h; simp [incr, getCount, List.lookup]
      · have hb : (n == k1) = false := by simp [h]
        simp [incr, getCount, List.lookup, hb, h]
    · by_cases h : n = k1
      · subst h
        have hb : (n == n) = true := by simp
        simp only [incr, if_neg hk]
        simp [getCount, List.lookup, hb, hk]
      · have hb : (n == k1) = false := by simp [h]
        simp only [incr, if_neg hk]
        simp only [getCount, List.lookup, hb] at ih ⊢
        exact ih

theorem skip_record_sig_eq (record : ClinvarRecord) (m : ClinvarRecordMeasure)
    (ct : Option ConsequenceType) (ao : String) (allowed : List String) (report : Report)
    (h : pyLower record.clinical_significance ∉ allowed) :
    skip_record record m ct ao allowed report =
      (true,
        if m.nsv_id.isSome then
          { report with n_nsv_skipped_clin_sig := report.n_nsv_skipped_clin_sig + 1 }
        else report) := by
  rw [skip_record, if_pos h]

theorem process_tuple_fold_sig (record : ClinvarRecord) (m : ClinvarRecordMeasure)
    (allowed : List String) (h : pyLower record.clinical_significance ∉ allowed) :
    ∀ (tuples : List (Option ConsequenceType × Trait × String)) (st : Report × Nat),
      ((tuples.foldl (process_tuple record m allowed) st).1.evidence_string_list =
        st.1.evidence_string_list) ∧
      (tuples.foldl (process_tuple record m allowed) st).2 = st.2 := by
  intro tuples
  induction tuples with
  | nil => intro st; exact ⟨rfl, rfl⟩
  | cons t ts ih =>
    intro st
    rw [List.foldl_cons]
    have hstep : process_tuple record m allowed st t =
        ((if m.nsv_id.isSome then
            { st.1 with n_nsv_skipped_clin_sig := st.1.n_nsv_skipped_clin_sig + 1 }
          else st.1), st.2) := by
      rw [process_tuple]
      rw [skip_record_sig_eq record m t.1 t.2.2 allowed st.1 h]
      rfl
    rw [hstep]
    rcases ih (if m.nsv_id.isSome then
        { st.1 with n_nsv_skipped_clin_sig := st.1.n_nsv_skipped_clin_sig + 1 }
      else st.1, st.2) with ⟨h1, h2⟩
    refine ⟨?_, h2⟩
    rw [h1]
    cases hns : m.nsv_id.isSome <;> simp

theorem create_traits_go_evidence (efo : EfoDict) :
    ∀ (groups : List (List String)) (i : Nat) (acc : List Trait) (rep : Report),
      (create_traits_go efo i groups acc rep).2.evidence_string_list =
        rep.evidence_string_list := by
  intro groups
  induction groups with
  | nil => intro i acc rep; rfl
  | cons g gs ih =>
    intro i acc rep
    rw [create_traits_go]
    split
    · exact ih (i + 1) _ rep
    · exact ih (i + 1) acc _

theorem measure_post_evidence (st : Report × Nat) :
    (measure_post st).1.evidence_string_list = st.1.evidence_string_list := by
  rw [measure_post]
  split <;> rfl

theorem measure_post_snd (st : Report × Nat) : (measure_post st).2 = st.2 := by
  rw [measure_post]
  split <;> rfl

theorem measure_tuple_phase_sig (record : ClinvarRecord) (m : ClinvarRecordMeasure)
    (dict : CTDict) (efo : EfoDict) (allowed : List String)
    (h : pyLower record.clinical_significance ∉ allowed) (rep : Report) (n : Nat) :
    (measure_tuple_phase record m dict efo allowed rep n).1.evidence_string_list =
      rep.evidence_string_list ∧
    (measure_tuple_phase record m dict efo allowed rep n).2 = n := by
  rcases process_tuple_fold_sig record m allowed h
    (product3
      (get_consequence_types m record.accession dict)
      (create_traits record.traits efo rep).1
      (convert_allele_origins record.allele_origins))
    ((create_traits record.traits efo rep).2, n) with ⟨h1, h2⟩
  rw [measure_tuple_phase]
  refine ⟨?_, h2⟩
  rw [h1, create_traits, create_traits_go_evidence]

theorem process_measure_sig (record : ClinvarRecord) (m : ClinvarRecordMeasure)
    (dict : CTDict) (efo : EfoDict) (allowed : List String)
    (h : pyLower record.clinical_significance ∉ allowed) (st : Report × Nat) :
    (process_measure record m dict efo allowed st).1.evidence_string_list =
      st.1.evidence_string_list ∧
    (process_measure record m dict efo allowed st).2 = st.2 := by
  rw [process_measure]
  constructor
  · rw [measure_post_evidence,
      (measure_tuple_phase_sig record m dict efo allowed h
        (measure_pre_report record m st.1) st.2).1]
    rfl
  · rw [measure_post_snd,
      (measure_tuple_phase_sig record m dict efo allowed h
        (measure_pre_report record m st.1) st.2).2]

theorem process_record_evidence_sig (record : ClinvarRecord) (dict : CTDict)
    (efo : EfoDict) (allowed : List String) (report : Report)
    (h : pyLower record.clinical_significance ∉ allowed) :
    (process_record record dict efo allowed report).evidence_string_list =
      report.evidence_string_list := by
  rw [process_record]
  have hfold : ∀ (ms : List ClinvarRecordMeasure) (st : Report × Nat),
      (ms.foldl (fun state m => process_measure record m dict efo allowed state)
        st).1.evidence_string_list = st.1.evidence_string_list := by
    intro ms
    induction ms with
    | nil => intro st; rfl
    | cons m ms ih =>
      intro st
      rw [List.foldl_cons, ih, (process_measure_sig record m dict efo allowed h st).1]
  rw [hfold]

/-! ### C1 -/

/-- C1: the skip filter checks, in order, clinical significance, absent
consequence, origin, the first match winning: a disallowed significance skips
the tuple, bumps `n_nsv_skipped_clin_sig` exactly when the measure carries an
nsv id and leaves `no_variant_to_ensg_mapping` and the per-origin counters
untouched even when the consequence is absent, and no evidence record is
emitted from such a record; only with allowed significance does an absent
consequence bump `no_variant_to_ensg_mapping`; only past both checks does an
origin outside germline and somatic bump its per-raw-origin-string counter. -/
theorem C1_skip_filter_order (record : ClinvarRecord) (m : ClinvarRecordMeasure)
    (ct : Option ConsequenceType) (ao : String) (allowed : List String) (report : Report) :
    (pyLower record.clinical_significance ∉ allowed →
      (skip_record record m ct ao allowed report).1 = true ∧
      (skip_record record m ct ao allowed report).2.n_nsv_skipped_clin_sig =
        report.n_nsv_skipped_clin_sig + (if m.nsv_id.isSome then 1 else 0) ∧
      (skip_record record m ct ao allowed report).2.no_variant_to_ensg_mapping =
        report.no_variant_to_ensg_mapping ∧
      (skip_record record m ct ao allowed report).2.n_unrecognised_allele_origin =
        report.n_unrecognised_allele_origin) ∧
    (pyLower record.clinical_significance ∈ allowed → ct = none →
      (skip_record record m ct ao allowed report).1 = true ∧
      (skip_record record m ct ao allowed report).2.no_variant_to_ensg_mapping =
        report.no_variant_to_ensg_mapping + 1 ∧
      (skip_record record m ct ao allowed report).2.n_nsv_skipped_clin_sig =
        report.n_nsv_skipped_clin_sig ∧
      (skip_record record m ct ao allowed report).2.n_unrecognised_allele_origin =
        report.n_unrecognised_allele_origin) ∧
    (pyLower record.clinical_significance ∈ allowed → ct ≠ none →
      ao ∉ ["germline", "somatic"] →
      (skip_record record m ct ao allowed report).1 = true ∧
      getCount (skip_record record m ct ao allowed report).2.n_unrecognised_allele_origin ao =
        getCount report.n_unrecognised_allele_origin ao + 1 ∧
      (skip_record record m ct ao allowed report).2.n_nsv_skipped_clin_sig =
        report.n_nsv_skipped_clin_sig ∧
      (skip_record record m ct ao allowed report).2.no_variant_to_ensg_mapping =
        report.no_variant_to_ensg_mapping) ∧
    (pyLower record.clinical_significance ∉ allowed →
      ∀ (dict : CTDict) (efo : EfoDict),
        (process_record record dict efo allowed report).evidence_string_list =
          report.evidence_string_list) := by
  refine ⟨fun h => ?_, fun h hct => ?_, fun h hct hao => ?_,
    fun h dict efo => process_record_evidence_sig record dict efo allowed report h⟩
  · rw [skip_record_sig_eq record m ct ao allowed report h]
    cases hns : m.nsv_id.isSome <;> simp
  · subst hct
    rw [skip_record, if_neg (not_not_intro h)]
    simp
  · rcases Option.ne_none_iff_exists.mp hct with ⟨c, hc⟩
    subst hc
    rw [skip_record, if_neg (not_not_intro h)]
    simp [getCount_incr, hao]

/-- Concrete instantiation of the disallowed-significance parts of
`C1_skip_filter_order`: the record with unrecognized significance skips the
tuple, bumps no nsv counter (its measure has no nsv id), leaves the other
skip counters alone, and emits no evidence at all. -/
theorem C1_skip_filter_order_witness :
    pyLower badSigRecord.clinical_significance ∉ ["pathogenic"] ∧
    ((skip_record badSigRecord sampleMeasure (some sampleCT1) "germline" ["pathogenic"]
        initialReport).1 = true ∧
      (skip_record badSigRecord sampleMeasure (some sampleCT1) "germline" ["pathogenic"]
        initialReport).2.n_nsv_skipped_clin_sig =
        initialReport.n_nsv_skipped_clin_sig +
          (if sampleMeasure.nsv_id.isSome then 1 else 0) ∧
      (skip_record badSigRecord sampleMeasure (some sampleCT1) "germline" ["pathogenic"]
        initialReport).2.no_variant_to_ensg_mapping =
        initialReport.no_variant_to_ensg_mapping ∧
      (skip_record badSigRecord sampleMeasure (some sampleCT1) "germline" ["pathogenic"]
        initialReport).2.n_unrecognised_allele_origin =
        initialReport.n_unrecognised_allele_origin) ∧
    (process_record badSigRecord sampleDict sampleEfo ["pathogenic"]
        initialReport).evidence_string_list = initialReport.evidence_string_list :=
  ⟨by decide,
   (C1_skip_filter_order badSigRecord sampleMeasure (some sampleCT1) "germline"
     ["pathogenic"] initialReport).1 (by decide),
   (C1_skip_filter_order badSigRecord sampleMeasure (some sampleCT1) "germline"
     ["pathogenic"] initialReport).2.2.2 (by decide) sampleDict sampleEfo⟩

/-! ### Helper lemmas for trait resolution -/

theorem pyTruthyList_create_trait_list (g : List String) (efo : EfoDict) (i : Nat) :
    pyTruthyList (create_trait_list g efo i) = group_resolves efo g := by
  rcases h : map_efo efo g with ⟨ts, mo⟩
  rw [create_trait_list, group_resolves, h]
  cases mo with
  | none => rfl
  | some ms =>
    cases ms with
    | nil => rfl
    | cons p ps => rfl

theorem getCount_foldl_incr (names : List String) :
    ∀ (m : List (String × Nat)) (n : String),
      getCount (names.foldl (fun mm nm => incr nm mm) m) n =
        getCount m n + names.count n := by
  induction names with
  | nil => intro m n; simp
  | cons x xs ih =>
    intro m n
    rw [List.foldl_cons, ih, getCount_incr]
    by_cases h : n = x
    · simp [List.count_cons, h]
      omega
    · simp [List.count_cons, h]

theorem create_traits_go_missed (efo : EfoDict) :
    ∀ (groups : List (List String)) (i : Nat) (acc : List Trait) (rep : Report),
      (create_traits_go efo i groups acc rep).2.n_missed_strings_unmapped_traits =
        rep.n_missed_strings_unmapped_traits +
          groups.countP (fun g => !(group_resolves efo g)) := by
  intro groups
  induction groups with
  | nil => intro i acc rep; simp [create_traits_go]
  | cons g gs ih =>
    intro i acc rep
    rw [create_traits_go]
    by_cases h : pyTruthyList (create_trait_list g efo i) = true
    · have hg : group_resolves efo g = true := by
        rw [← pyTruthyList_create_trait_list g efo i]; exact h
      rw [if_pos h, ih]
      simp [List.countP_cons, hg]
    · have hg : group_resolves efo g = false := by
        rw [← pyTruthyList_create_trait_list g efo i]
        exact Bool.eq_false_iff.mpr h
      rw [if_neg h, ih]
      simp [List.countP_cons, hg]
      omega

theorem create_traits_go_unmapped (efo : EfoDict) (name : String) :
    ∀ (groups : List (List String)) (i : Nat) (acc : List Trait) (rep : Report),
      getCount (create_traits_go efo i groups acc rep).2.unmapped_traits name =
        getCount rep.unmapped_traits name +
          ((groups.filter (fun g => !(group_resolves efo g))).map
            (fun g => g.count name)).sum := by
  intro groups
  induction groups with
  | nil => intro i acc rep; simp [create_traits_go]
  | cons g gs ih =>
    intro i acc rep
    rw [create_traits_go]
    by_cases h : pyTruthyList (create_trait_list g efo i) = true
    · have hg : group_resolves efo g = true := by
        rw [← pyTruthyList_create_trait_list g efo i]; exact h
      rw [if_pos h, ih]
      simp [List.filter_cons, hg]
    · have hg : group_resolves efo g = false := by
        rw [← pyTruthyList_create_trait_list g efo i]
        exact Bool.eq_false_iff.mpr h
      rw [if_neg h, ih]
      simp only [List.filter_cons, hg, Bool.not_false, if_pos, List.map_cons, List.sum_cons]
      rw [getCount_foldl_incr]
      omega

theorem create_traits_go_fst_of_fail (efo : EfoDict) :
    ∀ (groups : List (List String)) (i : Nat) (acc : List Trait) (rep : Report),
      (∀ g ∈ groups, group_resolves efo g = false) →
      (create_traits_go efo i groups acc rep).1 = acc := by
  intro groups
  induction groups with
  | nil => intro i acc rep _; rfl
  | cons g gs ih =>
    intro i acc rep hall
    rw [create_traits_go]
    have hg : group_resolves efo g = false := hall g (List.mem_cons_self g gs)
    have h : pyTruthyList (create_trait_list g efo i) = false := by
      rw [pyTruthyList_create_trait_list]; exact hg
    rw [if_neg (by simp [h])]
    exact ih (i + 1) acc _ (fun x hx => hall x (List.mem_cons_of_mem g hx))

theorem product3_nil_mid {α β γ : Type} (xs : List α) (zs : List γ) :
    product3 xs ([] : List β) zs = [] := by
  simp [product3]

theorem measure_post_missed (st : Report × Nat) :
    (measure_post st).1.n_missed_strings_unmapped_traits =
      st.1.n_missed_strings_unmapped_traits := by
  rw [measure_post]
  split <;> rfl

/-! ### C3 -/

theorem process_measure_all_fail (record : ClinvarRecord) (m : ClinvarRecordMeasure)
    (dict : CTDict) (efo : EfoDict) (allowed : List String) (report : Report) (n : Nat)
    (hall : ∀ g ∈ record.traits, group_resolves efo g = false) :
    (process_measure record m dict efo allowed (report, n)).2 = n ∧
    (process_measure record m dict efo allowed (report, n)).1.evidence_string_list =
      report.evidence_string_list ∧
    (process_measure record m dict efo allowed
        (report, n)).1.n_missed_strings_unmapped_traits =
      report.n_missed_strings_unmapped_traits + record.traits.length := by
  have htraits : ∀ rep : Report, (create_traits record.traits efo rep).1 = [] := by
    intro rep
    rw [create_traits]
    exact create_traits_go_fst_of_fail efo record.traits 0 [] rep hall
  have hphase : measure_tuple_phase record m dict efo allowed
      (measure_pre_report record m (report, n).1) (report, n).2 =
      ((create_traits record.traits efo (measure_pre_report record m report)).2, n) := by
    rw [measure_tuple_phase, htraits, product3_nil_mid]
    rfl
  rw [process_measure, hphase]
  refine ⟨measure_post_snd _, ?_, ?_⟩
  · rw [measure_post_evidence]
    rw [create_traits, create_traits_go_evidence]
    rfl
  · rw [measure_post_missed]
    rw [create_traits, create_traits_go_missed]
    have hcount : record.traits.countP (fun g => !(group_resolves efo g)) =
        record.traits.length := by
      apply List.countP_eq_length.mpr
      intro g hg
      simp [hall g hg]
    rw [hcount]
    rfl

theorem process_record_all_fail (record : ClinvarRecord) (dict : CTDict) (efo : EfoDict)
    (allowed : List String) (report : Report)
    (hall : ∀ g ∈ record.traits, group_resolves efo g = false) :
    (process_record record dict efo allowed report).n_missed_strings_unmapped_traits =
      report.n_missed_strings_unmapped_traits +
        record.measures.length * record.traits.length ∧
    (process_record record dict efo allowed report).evidence_string_list =
      report.evidence_string_list := by
  rw [process_record]
  have hfold : ∀ (ms : List ClinvarRecordMeasure) (st : Report × Nat),
      ((ms.foldl (fun state m => process_measure record m dict efo allowed state)
          st).1.n_missed_strings_unmapped_traits =
        st.1.n_missed_strings_unmapped_traits + ms.length * record.traits.length) ∧
      (ms.foldl (fun state m => process_measure record m dict efo allowed state)
          st).1.evidence_string_list = st.1.evidence_string_list := by
    intro ms
    induction ms with
    | nil => intro st; exact ⟨by simp, rfl⟩
    | cons m ms ih =>
      intro st
      rcases st with ⟨rep, n⟩
      rw [List.foldl_cons]
      rcases process_measure_all_fail record m dict efo allowed rep n hall with ⟨h1, h2, h3⟩
      rcases ih (process_measure record m dict efo allowed (rep, n)) with ⟨ih1, ih2⟩
      constructor
      · rw [ih1, h3, List.length_cons]
        ring
      · rw [ih2, h2]
  rcases hfold record.measures
    ({ report with record_counter := report.record_counter + 1 }, 0) with ⟨hm, he⟩
  exact ⟨hm, he⟩

/-- C3 counterexample: a record with two measures and a single unresolvable
trait group — allowed significance, resolving consequences, valid origins, so
its zero emission is due solely to trait resolution — bumps
`n_missed_strings_unmapped_traits` and the per-name count by 2, not by the
exactly-once-per-unresolved-group 1 the claim states, because trait
resolution is re-run for every measure of the record. -/
theorem C3_unmapped_trait_counters_counterexample :
    twoMeasureRecord.traits.length = 1 ∧
    pyLower twoMeasureRecord.clinical_significance ∈ (["pathogenic"] : List String) ∧
    get_consequence_types sampleMeasure twoMeasureRecord.accession sampleDict =
      [some sampleCT1, some sampleCT2] ∧
    (process_record twoMeasureRecord sampleDict sampleEfo ["pathogenic"]
      initialReport).evidence_string_list = [] ∧
    (process_record twoMeasureRecord sampleDict sampleEfo ["pathogenic"]
      initialReport).n_missed_strings_unmapped_traits = 2 ∧
    getCount (process_record twoMeasureRecord sampleDict sampleEfo ["pathogenic"]
      initialReport).unmapped_traits "Mystery Disease" = 2 ∧
    (2 : Nat) ≠ 1 := by
  decide

/-- C3 amended: the unmapped-trait counters are driven by trait groups, not
tuples, but per measure rather than once per record: over any group list,
`n_missed_strings_unmapped_traits` grows by exactly the number of unresolved
groups and each name's `unmapped_traits` count by its occurrences in
unresolved groups (resolving groups cause no updates); when every group of a
record fails resolution, each measure emits zero evidence records and grows
the group counter by exactly the number of groups, so over the whole record
the counter grows by measures × groups — exactly once per unresolved group
only for a single-measure record. -/
theorem C3_unmapped_trait_counters_amended (groups : List (List String)) (efo : EfoDict)
    (report : Report) :
    ((create_traits groups efo report).2.n_missed_strings_unmapped_traits =
      report.n_missed_strings_unmapped_traits +
        groups.countP (fun g => !(group_resolves efo g))) ∧
    (∀ name, getCount (create_traits groups efo report).2.unmapped_traits name =
      getCount report.unmapped_traits name +
        ((groups.filter (fun g => !(group_resolves efo g))).map
          (fun g => g.count name)).sum) ∧
    (∀ (record : ClinvarRecord) (m : ClinvarRecordMeasure) (dict : CTDict)
        (allowed : List String) (n : Nat),
      record.traits = groups →
      (∀ g ∈ groups, group_resolves efo g = false) →
      (process_measure record m dict efo allowed (report, n)).2 = n ∧
      (process_measure record m dict efo allowed (report, n)).1.evidence_string_list =
        report.evidence_string_list ∧
      (process_measure record m dict efo allowed
          (report, n)).1.n_missed_strings_unmapped_traits =
        report.n_missed_strings_unmapped_traits + groups.length) ∧
    (∀ (record : ClinvarRecord) (dict : CTDict) (allowed : List String),
      record.traits = groups →
      (∀ g ∈ groups, group_resolves efo g = false) →
      (process_record record dict efo allowed report).n_missed_strings_unmapped_traits =
        report.n_missed_strings_unmapped_traits +
          record.measures.length * groups.length ∧
      (process_record record dict efo allowed report).evidence_string_list =
        report.evidence_string_list) := by
  refine ⟨?_, fun name => ?_, fun record m dict allowed n htr hall => ?_,
    fun record dict allowed htr hall => ?_⟩
  · rw [create_traits]
    exact create_traits_go_missed efo groups 0 [] report
  · rw [create_traits]
    exact create_traits_go_unmapped efo name groups 0 [] report
  · subst htr
    exact process_measure_all_fail record m dict efo allowed report n hall
  · subst htr
    exact process_record_all_fail record dict efo allowed report hall

/-- Concrete instantiation of the per-measure and per-record parts of
`C3_unmapped_trait_counters_amended`: the single-measure record bumps the
group counter once, and the two-measure record with the same single failing
group bumps it measures × groups = 2 times, emitting nothing either way. -/
theorem C3_unmapped_trait_counters_amended_witness :
    unmappedRecord.traits = [["Mystery Disease"]] ∧
    twoMeasureRecord.traits = [["Mystery Disease"]] ∧
    (∀ g ∈ ([["Mystery Disease"]] : List (List String)),
      group_resolves sampleEfo g = false) ∧
    ((process_measure unmappedRecord sampleMeasure sampleDict sampleEfo ["pathogenic"]
        (initialReport, 0)).2 = 0 ∧
      (process_measure unmappedRecord sampleMeasure sampleDict sampleEfo ["pathogenic"]
        (initialReport, 0)).1.evidence_string_list =
        initialReport.evidence_string_list ∧
      (process_measure unmappedRecord sampleMeasure sampleDict sampleEfo ["pathogenic"]
        (initialReport, 0)).1.n_missed_strings_unmapped_traits =
        initialReport.n_missed_strings_unmapped_traits +
          ([["Mystery Disease"]] : List (List String)).length) ∧
    ((process_record twoMeasureRecord sampleDict sampleEfo ["pathogenic"]
        initialReport).n_missed_strings_unmapped_traits =
      initialReport.n_missed_strings_unmapped_traits +
        twoMeasureRecord.measures.length *
          ([["Mystery Disease"]] : List (List String)).length ∧
      (process_record twoMeasureRecord sampleDict sampleEfo ["pathogenic"]
        initialReport).evidence_string_list = initialReport.evidence_string_list) :=
  ⟨rfl, rfl, by decide,
   (C3_unmapped_trait_counters_amended [["Mystery Disease"]] sampleEfo initialReport).2.2.1
     unmappedRecord sampleMeasure sampleDict ["pathogenic"] 0 rfl (by decide),
   (C3_unmapped_trait_counters_amended [["Mystery Disease"]] sampleEfo initialReport).2.2.2
     twoMeasureRecord sampleDict ["pathogenic"] rfl (by decide)⟩

/-! ### C6 -/

/-- C6: a record with a single measure that resolves to 2 consequences, 1
trait and both classified origins, every tuple passing the skip filter,
emits exactly the 4 evidence records of the Cartesian product and bumps
`n_multiple_evidence_strings` exactly once (and
`n_processed_clinvar_records` exactly once). -/
theorem C6_cartesian_product_emission (record : ClinvarRecord) (m : ClinvarRecordMeasure)
    (dict : CTDict) (efo : EfoDict) (allowed : List String) (report : Report)
    (c1 c2 : ConsequenceType) (t : Trait)
    (hsig : pyLower record.clinical_significance ∈ allowed)
    (hms : record.measures = [m])
    (hcons : get_consequence_types m record.accession dict = [some c1, some c2])
    (htr : ∀ rep : Report, create_traits record.traits efo rep = ([t], rep))
    (hao : record.allele_origins = ["germline", "somatic"]) :
    (process_record record dict efo allowed report).evidence_string_list =
      report.evidence_string_list ++
        [(some c1, t, "somatic"), (some c1, t, "germline"),
         (some c2, t, "somatic"), (some c2, t, "germline")] ∧
    (process_record record dict efo allowed report).n_multiple_evidence_strings =
      report.n_multiple_evidence_strings + 1 ∧
    (process_record record dict efo allowed report).n_processed_clinvar_records =
      report.n_processed_clinvar_records + 1 := by
  have hconv : convert_allele_origins record.allele_origins = ["somatic", "germline"] := by
    rw [hao]
    decide
  have hpass : ∀ (st : Report × Nat) (c : ConsequenceType) (ao : String),
      ao ∈ (["germline", "somatic"] : List String) →
      process_tuple record m allowed st (some c, t, ao) =
        ({ st.1 with
            evidence_string_list := st.1.evidence_string_list ++ [(some c, t, ao)],
            n_valid_rs_and_nsv := st.1.n_valid_rs_and_nsv +
              (if m.nsv_id.isSome then 1 else 0) },
          st.2 + 1) := by
    intro st c ao haomem
    rw [process_tuple, skip_record, if_neg (not_not_intro hsig)]
    simp only [Option.isNone_some, Bool.false_eq_true, if_false]
    rw [if_neg (not_not_intro haomem)]
    rfl
  rw [process_record, hms, List.foldl_cons, List.foldl_nil, process_measure,
    measure_tuple_phase, htr, hcons, hconv]
  have hprod : product3 ([some c1, some c2] : List (Option ConsequenceType))
      (([t], measure_pre_report record m
        ({ report with record_counter := report.record_counter + 1 }, 0).1).1)
      ["somatic", "germline"] =
      [(some c1, t, "somatic"), (some c1, t, "germline"),
       (some c2, t, "somatic"), (some c2, t, "germline")] := rfl
  rw [hprod]
  rw [List.foldl_cons, hpass _ c1 "somatic" (by decide),
    List.foldl_cons, hpass _ c1 "germline" (by decide),
    List.foldl_cons, hpass _ c2 "somatic" (by decide),
    List.foldl_cons, hpass _ c2 "germline" (by decide),
    List.foldl_nil]
  rw [measure_post]
  norm_num
  exact ⟨rfl, rfl, rfl⟩

/-- Concrete instantiation of `C6_cartesian_product_emission` on the sample
record: 4 evidence records out, the multiple-strings counter bumped once. -/
theorem C6_cartesian_product_emission_witness :
    pyLower sampleRecord.clinical_significance ∈ ["pathogenic"] ∧
    ((process_record sampleRecord sampleDict sampleEfo ["pathogenic"]
        initialReport).evidence_string_list =
      initialReport.evidence_string_list ++
        [(some sampleCT1, sampleTrait, "somatic"), (some sampleCT1, sampleTrait, "germline"),
         (some sampleCT2, sampleTrait, "somatic"), (some sampleCT2, sampleTrait, "germline")] ∧
      (process_record sampleRecord sampleDict sampleEfo ["pathogenic"]
        initialReport).n_multiple_evidence_strings =
        initialReport.n_multiple_evidence_strings + 1 ∧
      (process_record sampleRecord sampleDict sampleEfo ["pathogenic"]
        initialReport).n_processed_clinvar_records =
        initialReport.n_processed_clinvar_records + 1) :=
  ⟨by decide,
   C6_cartesian_product_emission sampleRecord sampleMeasure sampleDict sampleEfo
     ["pathogenic"] initialReport sampleCT1 sampleCT2 sampleTrait
     (by decide) rfl (by decide) (fun rep => rfl) rfl⟩

/-! ### Helper lemmas for the EFO mapping loader -/

theorem zip_replicate_self {α β : Type} (l : List α) (b : β) :
    l.zip (List.replicate l.length b) = l.map (fun a => (a, b)) := by
  induction l with
  | nil => rfl
  | cons x xs ih => simp [List.replicate, ih]

theorem efo_line_pairs_nil_third (name idcol : String) :
    efo_line_pairs [name, idcol] =
      (pySplit idcol '|').map (fun i => (i, (none : Option String))) := by
  simp [efo_line_pairs, zip_replicate_self]

theorem efo_line_pairs_cons_third (name idcol lab : String) (rest2 : List String) :
    efo_line_pairs (name :: idcol :: lab :: rest2) =
      (pySplit idcol '|').zip ((pySplit lab '|').map some) := by
  have h2 : 2 < (name :: idcol :: lab :: rest2 : List String).length := by
    simp
  simp [efo_line_pairs, h2]

theorem countPairs_appendValue_self (d : EfoDict) (k : String) (p : String × Option String) :
    countPairs (appendValue d k p) k = countPairs d k + 1 := by
  induction d with
  | nil => simp [appendValue, countPairs, List.lookup]
  | cons e rest ih =>
    rcases e with ⟨k1, vs⟩
    by_cases h : k1 = k
    · subst h
      simp [appendValue, countPairs, List.lookup]
    · have hb : (k == k1) = false := by
        simp only [beq_eq_false_iff_ne, ne_eq]
        exact fun hc => h hc.symm
      simp only [appendValue, if_neg h]
      simp only [countPairs, List.lookup, hb] at ih ⊢
      exact ih

theorem countPairs_foldl_appendValue (ps : List (String × Option String)) :
    ∀ (d : EfoDict) (k : String),
      countPairs (ps.foldl (fun dd p => appendValue dd k p) d) k =
        countPairs d k + ps.length := by
  induction ps with
  | nil => intro d k; simp
  | cons p ps ih =>
    intro d k
    rw [List.foldl_cons, ih, countPairs_appendValue_self, List.length_cons]
    omega

theorem process_efo_line_ok_of_good (d : EfoDict) (line : String)
    (h : efo_line_bad line = false) :
    exceptIsOk (process_efo_line d line) = true := by
  rw [process_efo_line]
  by_cases h1 : (pyStartsWith (pyRstrip line) '#' || pyRstrip line = "") = true
  · rw [if_pos h1]
    rfl
  · rw [if_neg h1]
    rw [efo_line_bad] at h
    have h1f : (pyStartsWith (pyRstrip line) '#' || decide (pyRstrip line = "")) = false :=
      Bool.eq_false_iff.mpr h1
    rw [h1f] at h
    simp only [Bool.not_false, Bool.true_and] at h
    have hC : decide (1 < (pySplit (pyRstrip line) '\t').length) = true := by
      cases hx : decide (1 < (pySplit (pyRstrip line) '\t').length) with
      | true => rfl
      | false => rw [hx] at h; exact absurd h (by decide)
    dsimp only
    rw [if_pos (of_decide_eq_true hC)]
    rfl

theorem process_efo_line_err_of_bad (d : EfoDict) (line : String)
    (h : efo_line_bad line = true) :
    exceptIsOk (process_efo_line d line) = false := by
  rw [efo_line_bad] at h
  simp only [Bool.and_eq_true] at h
  rcases h with ⟨h1, h2⟩
  have h1f : (pyStartsWith (pyRstrip line) '#' || decide (pyRstrip line = "")) = false := by
    cases hx : (pyStartsWith (pyRstrip line) '#' || decide (pyRstrip line = "")) with
    | false => rfl
    | true => rw [hx] at h1; exact absurd h1 (by decide)
  have h2f : ¬ (1 < (pySplit (pyRstrip line) '\t').length) := by
    intro hlt
    rw [decide_eq_true hlt] at h2
    exact absurd h2 (by decide)
  rw [process_efo_line]
  rw [if_neg (by simp [h1f])]
  dsimp only
  rw [if_neg h2f]
  rfl

theorem load_efo_mapping_go_ok_iff (lines : List String) :
    ∀ d : EfoDict, exceptIsOk (load_efo_mapping_go d lines) = true ↔
      ∀ l ∈ lines, efo_line_bad l = false := by
  induction lines with
  | nil =>
    intro d
    simp [load_efo_mapping_go, exceptIsOk]
  | cons l ls ih =>
    intro d
    rw [load_efo_mapping_go]
    by_cases hb : efo_line_bad l = true
    · have herr := process_efo_line_err_of_bad d l hb
      rcases hp : process_efo_line d l with e | d2
      · constructor
        · intro htrue
          exact absurd htrue Bool.false_ne_true
        · intro hall
          exact absurd (hall l (List.mem_cons_self l ls)) (by simp [hb])
      · rw [hp] at herr
        simp [exceptIsOk] at herr
    · have hgood : efo_line_bad l = false := Bool.eq_false_iff.mpr hb
      have hok := process_efo_line_ok_of_good d l hgood
      rcases hp : process_efo_line d l with e | d2
      · rw [hp] at hok
        simp [exceptIsOk] at hok
      · show exceptIsOk (load_efo_mapping_go d2 ls) = true ↔
          ∀ l2 ∈ l :: ls, efo_line_bad l2 = false
        rw [ih d2]
        constructor
        · intro hall l2 hl2
          rcases List.mem_cons.mp hl2 with h | h
          · subst h; exact hgood
          · exact hall l2 h
        · intro hall l2 hl2
          exact hall l2 (List.mem_cons_of_mem l hl2)

/-! ### C7 -/

/-- C7 counterexample: the line `name<TAB>id1|id2<TAB>label1` has two
pipe-separated ontology ids but loads only one (id, label) pair, because the
ids are zipped against the single label — contradicting the claim that one
pair is appended per pipe-separated ontology id for every non-erroring
line. -/
theorem C7_load_efo_mapping_counterexample :
    load_efo_mapping ["name\tid1|id2\tlabel1"] =
      Except.ok [("name", [("id1", some "label1")])] ∧
    (pySplit "id1|id2" '|').length = 2 ∧
    [("id1", some "label1")].length = 1 ∧ (1 : Nat) ≠ 2 :=
  ⟨rfl, by decide, rfl, by decide⟩

/-- C7 amended: loading raises a fatal error iff some non-comment, non-blank
line has fewer than 2 tab-separated fields; every other such line loads
without error, appending under the lower-cased trait name one (id, label)
pair per position of the zip of the pipe-split id column with the labels —
that is, one pair per ontology id when the third column is missing (labels
all absent) and min(#ids, #labels) pairs when the third column is present,
so ids beyond the number of labels are dropped. -/
theorem C7_load_efo_mapping_error_iff (lines : List String) :
    (exceptIsOk (load_efo_mapping lines) = false ↔
      ∃ l ∈ lines, efo_line_bad l = true) ∧
    (∀ (d : EfoDict) (line name idcol : String) (rest : List String),
      pyStartsWith (pyRstrip line) '#' = false →
      pySplit (pyRstrip line) '\t' = name :: idcol :: rest →
      process_efo_line d line =
        Except.ok ((efo_line_pairs (name :: idcol :: rest)).foldl
          (fun dd p => appendValue dd (pyLower name) p) d) ∧
      countPairs ((efo_line_pairs (name :: idcol :: rest)).foldl
          (fun dd p => appendValue dd (pyLower name) p) d) (pyLower name) =
        countPairs d (pyLower name) +
          min (pySplit idcol '|').length
            (match rest with
             | [] => (pySplit idcol '|').length
             | lab :: _ => (pySplit lab '|').length) ∧
      (rest = [] → efo_line_pairs (name :: idcol :: rest) =
        (pySplit idcol '|').map (fun i => (i, (none : Option String))))) := by
  constructor
  · have h := load_efo_mapping_go_ok_iff lines []
    rw [load_efo_mapping]
    constructor
    · intro hf
      by_contra hex
      push_neg at hex
      simp only [Bool.not_eq_true] at hex
      rw [h.mpr hex] at hf
      exact absurd hf (by decide)
    · rintro ⟨l, hl, hbad⟩
      cases hio : exceptIsOk (load_efo_mapping_go [] lines) with
      | false => rfl
      | true =>
        have hall := h.mp hio
        exact absurd (hall l hl) (by simp [hbad])
  · intro d line name idcol rest hc hsplit
    have hnb : ¬ (pyRstrip line = "") := by
      intro hne
      have hone : (pySplit (pyRstrip line) '\t').length = 1 := by
        rw [hne]
        rfl
      rw [hsplit] at hone
      simp at hone
    have hlen : 1 < (pySplit (pyRstrip line) '\t').length := by
      rw [hsplit]
      simp only [List.length_cons]
      omega
    have hline : process_efo_line d line =
        Except.ok ((efo_line_pairs (name :: idcol :: rest)).foldl
          (fun dd p => appendValue dd (pyLower name) p) d) := by
      rw [process_efo_line]
      rw [if_neg (by simp [hc, hnb])]
      dsimp only
      rw [hsplit]
      rw [if_pos (by simp only [List.length_cons]; omega)]
      rfl
    refine ⟨hline, ?_, ?_⟩
    · rw [countPairs_foldl_appendValue]
      congr 1
      cases rest with
      | nil =>
        rw [efo_line_pairs_nil_third]
        simp
      | cons lab rest2 =>
        rw [efo_line_pairs_cons_third]
        simp [List.length_zip]
    · intro hrest
      subst hrest
      exact efo_line_pairs_nil_third name idcol

/-- Concrete instantiation of the good-line part of
`C7_load_efo_mapping_error_iff`: a two-field line with two pipe-separated ids
and no label column loads both ids with absent labels. -/
theorem C7_load_efo_mapping_error_iff_witness :
    pyStartsWith (pyRstrip "disease x\ta|b") '#' = false ∧
    pySplit (pyRstrip "disease x\ta|b") '\t' = ["disease x", "a|b"] ∧
    (process_efo_line [] "disease x\ta|b" =
        Except.ok ((efo_line_pairs ["disease x", "a|b"]).foldl
          (fun dd p => appendValue dd (pyLower "disease x") p) []) ∧
      countPairs ((efo_line_pairs ["disease x", "a|b"]).foldl
          (fun dd p => appendValue dd (pyLower "disease x") p) []) (pyLower "disease x") =
        countPairs [] (pyLower "disease x") +
          min (pySplit "a|b" '|').length (pySplit "a|b" '|').length ∧
      (([] : List String) = [] → efo_line_pairs ["disease x", "a|b"] =
        (pySplit "a|b" '|').map (fun i => (i, (none : Option String))))) :=
  ⟨by decide, by decide,
   (C7_load_efo_mapping_error_iff ["disease x\ta|b"]).2 [] "disease x\ta|b"
     "disease x" "a|b" [] (by decide) (by decide)⟩

end EvaCttv
